import Mathlib

/-!
Verification of the DynonToHud telemetry decoder.

This file gives a shallow embedding, in Lean 4, of the core of the
DynonToHud repository (files dynon_decoder.py, json_data_cache.py and
dynon_serial_reader.py) and proves, or refutes, the claims of its
specification against that embedding.

Modelling conventions:
 * Python float values are modelled as exact rational numbers (ℚ).
   The numeric fields of the serial frames are short fixed-width decimal
   strings whose values are exactly representable, so the claims below
   do not depend on binary floating-point rounding.
 * Wall-clock instants are rational numbers (seconds); the current UTC
   date used by the decoder's timestamp synthesis is passed explicitly.
 * Python dictionaries are insertion-ordered association lists with
   unique keys; dict assignment and dict.update are modelled by
   dictSet and dictUpdate below.
 * A Python method that can raise is modelled by returning the new
   object state together with an `Option String` holding the raised
   exception, or by an `Except String` result; `None` returned by a
   Python function is modelled as `Option.none`.
-/
/-! ### Reducible rational arithmetic

The `Rat.add`, `Rat.sub`, `Rat.mul` and `Rat.inv` operations of the
library are irreducible, which blocks kernel evaluation of concrete
witnesses.  The embedding therefore uses the equivalent reducible
operations below, each proved equal to the library operation.
-/

def qmul (a b : ℚ) : ℚ := mkRat (a.num * b.num) (a.den * b.den)

def qadd (a b : ℚ) : ℚ := mkRat (a.num * b.den + b.num * a.den) (a.den * b.den)

def qsub (a b : ℚ) : ℚ := qadd a (-b)

def qinv (b : ℚ) : ℚ :=
  if b.num < 0 then mkRat (-(b.den : ℤ)) b.num.natAbs
  else mkRat (b.den : ℤ) b.num.toNat

def qdiv (a b : ℚ) : ℚ := qmul a (qinv b)

/-! ### Python values and dictionaries

A Python dictionary is modelled as an insertion-ordered association
list.  `dictSet d k v` is the statement `d[k] = v`; `dictUpdate d e`
is `d.update(e)`; `dictGet` is key lookup.
-/

inductive PyVal where
  | str (s : String)
  | num (q : ℚ)
  | int (n : ℤ)
deriving DecidableEq

abbrev Dict := List (String × PyVal)

def dictSet : Dict → String → PyVal → Dict
  | [], k, v => [(k, v)]
  | (k', v') :: rest, k, v =>
    if k' = k then (k, v) :: rest else (k', v') :: dictSet rest k v

def dictUpdate (d : Dict) (e : Dict) : Dict :=
  e.foldl (fun acc p => dictSet acc p.1 p.2) d

def dictGet : Dict → String → Option PyVal
  | [], _ => none
  | (k', v) :: rest, k => if k' = k then some v else dictGet rest k

def dictKeys (d : Dict) : List String := d.map Prod.fst

/-- First-of-two-options choice, the lookup order of a merged dict. -/
def optOr (x y : Option PyVal) : Option PyVal :=
  match x with
  | some v => some v
  | none => y

/-! ### Python string primitives

`pySlice s a b` is the Python slice `s[a:b]` (with Python's clamping
behaviour for out-of-range bounds).  `pyFloat`, `pyInt` and `pyIntHex`
model the conversions `float(s)`, `int(s)` and `int(s, 16)` on the
decimal/hexadecimal literal shapes that can occur in a fixed-width
frame field; special spellings of those conversions that cannot
appear in a frame field (surrounding whitespace, digit-group
underscores, "inf"/"nan") are not modelled.  The numeric value is the
exact rational value of the literal.
-/

def pySlice (s : String) (a b : ℕ) : String := ⟨(s.data.drop a).take (b - a)⟩

def digitsToNat (l : List Char) : ℕ := l.foldl (fun acc c => acc * 10 + (c.toNat - 48)) 0

/-- Leading `+`/`-` sign: `(isNegative, remaining characters)`. -/
def stripSign : List Char → Bool × List Char
  | '+' :: r => (false, r)
  | '-' :: r => (true, r)
  | l => (false, l)

def applySign (neg : Bool) (q : ℚ) : ℚ := if neg then -q else q

def parseSignedDec (l : List Char) : Option ℤ :=
  let p := stripSign l
  let ds := p.2.takeWhile Char.isDigit
  let rest := p.2.dropWhile Char.isDigit
  if ds.isEmpty ∨ ¬ rest.isEmpty then none
  else some (if p.1 then -(digitsToNat ds : ℤ) else (digitsToNat ds : ℤ))

/-- The optional exponent suffix of a float literal; absent means 0. -/
def parseExponent : List Char → Option ℤ
  | [] => some 0
  | 'e' :: r => parseSignedDec r
  | 'E' :: r => parseSignedDec r
  | _ => none

def scaleByPow10 (q : ℚ) (e : ℤ) : ℚ :=
  if 0 ≤ e then qmul q (mkRat (10 ^ e.toNat) 1) else qmul q (mkRat 1 (10 ^ (-e).toNat))

def pyFloat (s : String) : Option ℚ :=
  let p := stripSign s.data
  let ip := p.2.takeWhile Char.isDigit
  let l2 := p.2.dropWhile Char.isDigit
  match l2 with
  | '.' :: l3 =>
    let fp := l3.takeWhile Char.isDigit
    let l4 := l3.dropWhile Char.isDigit
    if ip.isEmpty ∧ fp.isEmpty then none
    else (parseExponent l4).map (fun e =>
      applySign p.1 (scaleByPow10 (mkRat (digitsToNat (ip ++ fp)) (10 ^ fp.length)) e))
  | _ =>
    if ip.isEmpty then none
    else (parseExponent l2).map (fun e =>
      applySign p.1 (scaleByPow10 (mkRat (digitsToNat ip) 1) e))

def pyInt (s : String) : Option ℤ := parseSignedDec s.data

def hexDigitVal (c : Char) : Option ℕ :=
  if c.isDigit then some (c.toNat - 48)
  else if 'a' ≤ c ∧ c ≤ 'f' then some (c.toNat - 87)
  else if 'A' ≤ c ∧ c ≤ 'F' then some (c.toNat - 55)
  else none

def isHexDigitChar (c : Char) : Bool := (hexDigitVal c).isSome

def hexDigitsToNat (l : List Char) : ℕ :=
  l.foldl (fun acc c => acc * 16 + ((hexDigitVal c).getD 0)) 0

def stripHexMark : List Char → List Char
  | '0' :: 'x' :: r => r
  | '0' :: 'X' :: r => r
  | l => l

def pyIntHex (s : String) : Option ℤ :=
  let p := stripSign s.data
  let l2 := stripHexMark p.2
  let ds := l2.takeWhile isHexDigitChar
  let rest := l2.dropWhile isHexDigitChar
  if ds.isEmpty ∨ ¬ rest.isEmpty then none
  else some (if p.1 then -(hexDigitsToNat ds : ℤ) else (hexDigitsToNat ds : ℤ))

/-- Number of decimal digits of the terminating decimal expansion of a
fraction with denominator `den` (least k with den ∣ 10^k, searched up
to 40, which covers every value producible from a frame field). -/
def decFracLen (den : ℕ) : ℕ :=
  ((List.range 41).find? (fun k => 10 ^ k % den == 0)).getD 40

def padZeros (s : String) (w : ℕ) : String := ⟨List.replicate (w - s.length) '0'⟩ ++ s

/-- Python `str()` of a float whose value is the exact rational `q`
with a terminating decimal expansion.  For the values this program
applies it to (a parsed two-digit field divided by 64) the shortest
round-tripping representation printed by Python is the exact decimal
expansion produced here.  (Python's negative zero is not modelled.) -/
def pyFloatRepr (q : ℚ) : String :=
  let sgn := if q < 0 then "-" else ""
  let n := q.num.natAbs
  let d := q.den
  let k := decFracLen d
  let scaled := n * 10 ^ k / d
  let ipart := Nat.repr (scaled / 10 ^ k)
  let fpart := if k = 0 then "0" else padZeros (Nat.repr (scaled % 10 ^ k)) k
  sgn ++ ipart ++ "." ++ fpart

/-! ### json_data_cache.py

`JsonDataCache` stores a dictionary plus the time of the last update
and a maximum age.  Each method takes the current wall-clock time
`now` (`datetime.datetime.utcnow()` in the source) explicitly.
The lock acquire/release pairs of the source serialise the methods;
since each embedded method is a single atomic state transition, the
lock has no further observable content here.
-/

structure JsonDataCache where
  __max_age_seconds__ : ℚ
  __last_updated__ : Option ℚ
  __json_package__ : Dict
deriving DecidableEq

def JsonDataCache.init (max_age_seconds : ℚ) : JsonDataCache :=
  { __max_age_seconds__ := max_age_seconds
    __last_updated__ := none
    __json_package__ := [] }

/-- `__get_data_age__`.  The `self.__json_package__ is None` disjunct of
the source can never hold (the package field is always a dict), so the
guard reduces to `self.__last_updated__ is None`. -/
def JsonDataCache.__get_data_age__ (c : JsonDataCache) (now : ℚ) : ℚ :=
  match c.__last_updated__ with
  | none => qmul c.__max_age_seconds__ 1000
  | some lu => qsub now lu

def JsonDataCache.garbage_collect (c : JsonDataCache) (now : ℚ) : JsonDataCache :=
  if c.__get_data_age__ now > c.__max_age_seconds__ then
    { c with __json_package__ := [] }
  else c

/-- `update(new_package)`; `none` models the Python argument `None`. -/
def JsonDataCache.update (c : JsonDataCache) (now : ℚ) (new_package : Option Dict) :
    JsonDataCache :=
  match new_package with
  | none => c
  | some p =>
    if p.length < 1 then c
    else
      { c with
        __last_updated__ := some now
        __json_package__ := dictUpdate c.__json_package__ p }

def JsonDataCache.is_available (c : JsonDataCache) (now : ℚ) : Bool :=
  c.__get_data_age__ now < c.__max_age_seconds__

def JsonDataCache.get_item_count (c : JsonDataCache) : ℕ := c.__json_package__.length

/-- `get()`: the *contents* returned to the caller; that the returned
dict is a fresh copy is modelled separately by `JsonDataCacheRef.get`
below. -/
def JsonDataCache.get (c : JsonDataCache) (now : ℚ) : Dict :=
  match c.__last_updated__ with
  | none => []
  | some lu => if qsub now lu < c.__max_age_seconds__ then c.__json_package__ else []

/-! #### A heap model for the copy semantics of `get()`

Python dictionaries are heap objects; `get()` returns
`self.__json_package__.copy()`, a freshly allocated dict.  To express
that the returned dict does not alias the stored one, we model the
heap explicitly: a heap is a list of dict cells, and a cache holds a
reference (index) to its package cell.  `JsonDataCacheRef.get`
allocates a fresh cell exactly as the source either returns `{}`
(a fresh empty dict) or `self.__json_package__.copy()`. -/

abbrev Heap := List Dict

def heapRead : Heap → ℕ → Dict
  | [], _ => []
  | d :: _, 0 => d
  | _ :: h, r + 1 => heapRead h r

def heapWrite : Heap → ℕ → Dict → Heap
  | [], _, _ => []
  | _ :: h, 0, d => d :: h
  | c :: h, r + 1, d => c :: heapWrite h r d

def heapAlloc (h : Heap) (d : Dict) : Heap × ℕ := (h ++ [d], h.length)

structure JsonDataCacheRef where
  __max_age_seconds__ : ℚ
  __last_updated__ : Option ℚ
  __json_package_ref__ : ℕ

/-- `get()` in the heap model: the returned dict is always a fresh
allocation (either `{}` or `.copy()` of the stored cell). -/
def JsonDataCacheRef.get (c : JsonDataCacheRef) (h : Heap) (now : ℚ) : Heap × ℕ :=
  match c.__last_updated__ with
  | none => heapAlloc h []
  | some lu =>
    if qsub now lu < c.__max_age_seconds__ then
      heapAlloc h (heapRead h c.__json_package_ref__)
    else heapAlloc h []

/-! ### dynon_decoder.py -/

def METERS_TO_YARDS : ℚ := mkRat 109361 100000

def METERS_TO_FEET : ℚ := mkRat 328084 100000

def AIRSPEED_CONVERSION_FACTOR : ℚ := mkRat 647 1000

def MAX_EMS_DATA_AGE_SECONDS : ℚ := mkRat 5 10

def MAX_EFIS_DATA_AGE_SECOND : ℚ := mkRat 25 100

/-- `__get_data_length__`: length of a read, 0 for `None`/empty. -/
def __get_data_length__ : Option String → ℕ
  | none => 0
  | some s => s.length

structure PyDate where
  year : ℕ
  month : ℕ
  day : ℕ
deriving DecidableEq

structure EfisAndEmsDecoder where
  __ems_data__ : JsonDataCache
  __efis_data__ : JsonDataCache
  max_lateral_gs : ℚ
  min_lateral_gs : ℚ
  max_vertical_gs : ℚ
  min_vertical_gs : ℚ
deriving DecidableEq

def EfisAndEmsDecoder.init : EfisAndEmsDecoder :=
  { __ems_data__ := JsonDataCache.init MAX_EMS_DATA_AGE_SECONDS
    __efis_data__ := JsonDataCache.init MAX_EFIS_DATA_AGE_SECOND
    max_lateral_gs := 1
    min_lateral_gs := 1
    max_vertical_gs := 1
    min_vertical_gs := 1 }

def EfisAndEmsDecoder.update_gs (st : EfisAndEmsDecoder)
    (current_vertical_gs current_lateral_gs : ℚ) : EfisAndEmsDecoder :=
  let st := if current_vertical_gs < st.min_vertical_gs then
    { st with min_vertical_gs := current_vertical_gs } else st
  let st := if current_vertical_gs > st.max_vertical_gs then
    { st with max_vertical_gs := current_vertical_gs } else st
  let st := if current_lateral_gs < st.min_lateral_gs then
    { st with min_lateral_gs := current_lateral_gs } else st
  if current_lateral_gs > st.max_lateral_gs then
    { st with max_lateral_gs := current_lateral_gs } else st

/-- `time_fraction` sub-expression of `decode_efis`:
`str(float(serial_data[6:8]) / 64.0)[2:4]`. -/
def time_fraction (s : String) : Option String :=
  (pyFloat s).map (fun q => pySlice (pyFloatRepr (qdiv q 64)) 2 4)

/-- The `"{0:04}-{1:02}-{2:02}T{3}:{4}:{5}.{6}Z".format(...)` string of
`decode_efis`: the date from the current UTC wall clock, the time of
day from the frame. -/
def format_timestamp (today : PyDate) (hour minute second frac : String) : String :=
  padZeros (Nat.repr today.year) 4 ++ "-" ++ padZeros (Nat.repr today.month) 2 ++ "-" ++
    padZeros (Nat.repr today.day) 2 ++ "T" ++ hour ++ ":" ++ minute ++ ":" ++ second ++
    "." ++ frac ++ "Z"

/-- The body of `decode_efis` after the length guard: field extraction
and the construction of the `decoded_efis` dict.  A `ValueError`
raised by any numeric conversion aborts the whole body before the
cache merge; the source raises at the first failing field, which is
observationally the single `.error` case here.  `min_vertical_gs` and
`max_vertical_gs` are the decoder state fields read when building the
dict.  Python's `status_bitmask & 1` on the parsed int is its value
modulo 2 (Python `%` on ints, like Lean's `Int.emod`, is Euclidean,
and `& 1` extracts the low two's-complement bit). -/
def decode_efis_package (min_vertical_gs max_vertical_gs : ℚ) (today : PyDate)
    (serial_data : String) : Except String Dict :=
  let hour := pySlice serial_data 0 2
  let minute := pySlice serial_data 2 4
  let second := pySlice serial_data 4 6
  match time_fraction (pySlice serial_data 6 8),
      pyFloat (pySlice serial_data 8 12),
      pyFloat (pySlice serial_data 12 17),
      pyInt (pySlice serial_data 17 20),
      pyFloat (pySlice serial_data 20 24),
      pyFloat (pySlice serial_data 24 29),
      pyFloat (pySlice serial_data 29 33),
      pyFloat (pySlice serial_data 36 39),
      pyInt (pySlice serial_data 39 41),
      pyIntHex (pySlice serial_data 41 47) with
  | some tf, some pitch_raw, some roll_raw, some yaw, some ias_raw, some alt_raw,
      some turn_raw, some vg_raw, some angle_of_attack, some status_bitmask =>
    let pitch := qdiv pitch_raw 10
    let roll := qdiv roll_raw 10
    let ias_meters_per_second := qdiv ias_raw 10
    let airspeed := qmul ias_meters_per_second AIRSPEED_CONVERSION_FACTOR
    let altitude := qmul METERS_TO_FEET alt_raw
    let turn_rate_or_vsi := qdiv turn_raw 10
    let vertical_gs := qdiv vg_raw 10
    let is_pressure_alt_and_vsi := status_bitmask % 2 = 1
    let last_time_received := format_timestamp today hour minute second tf
    let decoded_efis : Dict := [
      ("GPSTime", PyVal.str last_time_received),
      ("GPSLastGPSTimeStratuxTime", PyVal.str last_time_received),
      ("BaroLastMeasurementTime", PyVal.str last_time_received),
      ("AHRSPitch", PyVal.num pitch),
      ("AHRSRoll", PyVal.num roll),
      ("AHRSGyroHeading", PyVal.int yaw),
      ("AHRSMagHeading", PyVal.int yaw),
      ("AHRSGLoad", PyVal.num vertical_gs),
      ("AHRSGLoadMin", PyVal.num min_vertical_gs),
      ("AHRSGLoadMax", PyVal.num max_vertical_gs),
      ("AHRSLastAttitudeTime", PyVal.str last_time_received),
      ("AHRSAirspeed", PyVal.num airspeed),
      ("AHRSAOA", PyVal.int angle_of_attack),
      ("AHRSStatus", PyVal.int 7)]
    let decoded_efis :=
      if is_pressure_alt_and_vsi then
        dictSet (dictSet decoded_efis
          "BaroPressureAltitude" (PyVal.num (qmul altitude METERS_TO_YARDS)))
          "BaroVerticalSpeed" (PyVal.num (qmul METERS_TO_YARDS turn_rate_or_vsi))
      else
        dictSet (dictSet decoded_efis
          "Altitude" (PyVal.num (qmul altitude METERS_TO_YARDS)))
          "AHRSTurnRate" (PyVal.num turn_rate_or_vsi)
    Except.ok decoded_efis
  | _, _, _, _, _, _, _, _, _, _ => Except.error "ValueError"

/-- `decode_efis`: length guard, field decode, then (only on full
success) the merge into the EFIS cache.  The second component is the
exception propagated out of the call, if any. -/
def EfisAndEmsDecoder.decode_efis (st : EfisAndEmsDecoder) (today : PyDate) (now : ℚ)
    (serial_data : Option String) : EfisAndEmsDecoder × Option String :=
  if __get_data_length__ serial_data ≠ 53 then (st, none)
  else
    match decode_efis_package st.min_vertical_gs st.max_vertical_gs today
        (serial_data.getD "") with
    | Except.ok decoded_efis =>
      ({ st with __efis_data__ := st.__efis_data__.update now (some decoded_efis) }, none)
    | Except.error e => (st, some e)

/-- The body of `decode_ems` after the length guard. -/
def decode_ems_package (serial_data : String) : Except String Dict :=
  match pyFloat (pySlice serial_data 8 12),
      pyFloat (pySlice serial_data 15 18),
      pyFloat (pySlice serial_data 18 21),
      pyFloat (pySlice serial_data 21 24),
      pyFloat (pySlice serial_data 27 30),
      pyFloat (pySlice serial_data 37 40),
      pyFloat (pySlice serial_data 40 43) with
  | some map_raw, some oilp_raw, some fuelp_raw, some volts_raw, some rpm_raw,
      some f1_raw, some f2_raw =>
    let manifold_pressure := qdiv map_raw 100
    let oil_temp := pySlice serial_data 12 15
    let oil_pressure := qdiv oilp_raw 10
    let fuel_pressure := qdiv fuelp_raw 10
    let volts := qdiv volts_raw 10
    let amps := pySlice serial_data 24 27
    let rpm := qmul rpm_raw 10
    let fuel_level_1 := qdiv f1_raw 10
    let fuel_level_2 := qdiv f2_raw 10
    let gp_1 := pySlice serial_data 43 51
    let gp_2 := pySlice serial_data 51 59
    Except.ok [
      ("EmsMap", PyVal.num manifold_pressure),
      ("EmsOilTemp", PyVal.str oil_temp),
      ("EmsOilPressure", PyVal.num oil_pressure),
      ("EmsFuelPressure", PyVal.num fuel_pressure),
      ("EmsVolts", PyVal.num volts),
      ("EmsAmps", PyVal.str amps),
      ("EmsRpm", PyVal.num rpm),
      ("EmsFuelLevel1", PyVal.num fuel_level_1),
      ("EmsFuelLevel2", PyVal.num fuel_level_2),
      ("EmsGp1", PyVal.str gp_1),
      ("EmsGp2", PyVal.str gp_2)]
  | _, _, _, _, _, _, _ => Except.error "ValueError"

def EfisAndEmsDecoder.decode_ems (st : EfisAndEmsDecoder) (now : ℚ)
    (serial_data : Option String) : EfisAndEmsDecoder × Option String :=
  if __get_data_length__ serial_data ≠ 121 then (st, none)
  else
    match decode_ems_package (serial_data.getD "") with
    | Except.ok ems_package =>
      ({ st with __ems_data__ := st.__ems_data__.update now (some ems_package) }, none)
    | Except.error e => (st, some e)

/-- `get_ahrs_package`. -/
def EfisAndEmsDecoder.get_ahrs_package (st : EfisAndEmsDecoder) (now : ℚ) : Dict :=
  let cloned_package : Dict := [("Service", PyVal.str "DynonToHud")]
  let ems_package := if st.__ems_data__.is_available now then st.__ems_data__.get now else []
  let efis_package := if st.__efis_data__.is_available now then st.__efis_data__.get now else []
  dictUpdate (dictUpdate cloned_package ems_package) efis_package

def EfisAndEmsDecoder.garbage_collect (st : EfisAndEmsDecoder) (now : ℚ) :
    EfisAndEmsDecoder :=
  { st with
    __efis_data__ := st.__efis_data__.garbage_collect now
    __ems_data__ := st.__ems_data__.garbage_collect now }

/-- The EFIS example line of the source, as fed by `__main__`
(the 51-character literal plus a CR LF line ending, length 53). -/
def efis_example_line : String :=
  "21301133-008+00001100000+0024-002-00+1099FC39FE01AC\x0d\n"

/-! ### dynon_serial_reader.py

The serial handle is opaque (`Option Unit`); the behaviour of the
physical link on one call is an explicit parameter: `openResult` is
the outcome of a `serial.Serial(...)` construction attempt and
`ReadlineResult` the outcome of one `readline()` call (a decoded
ASCII line, possibly empty, or a raised I/O error). -/

inductive ReadlineResult where
  | line (s : String)
  | ioError
deriving DecidableEq

structure DynonSerialReader where
  serial_port : String
  serial_reader : Option Unit
  __last_read__ : Option ℚ
deriving DecidableEq

/-- `timedelta`, reduced to its length in seconds. -/
structure PyTimedelta where
  seconds : ℚ
deriving DecidableEq

/-- A Python object as the operand of a comparison: either a number,
or a bound method object (an attribute access on a method *without*
calling it). -/
inductive PyOperand where
  | num (q : ℚ)
  | boundMethod (receiver : PyTimedelta) (name : String)
deriving DecidableEq

/-- Python `>`: comparing a bound method with a number raises
`TypeError`. -/
def pyGreaterThan : PyOperand → PyOperand → Except String Bool
  | PyOperand.num a, PyOperand.num b => Except.ok (decide (a > b))
  | _, _ => Except.error "TypeError"

/-- `get_time_since_last_read`: `timedelta(minutes=90)` (5400 seconds)
when no successful read was ever recorded.  Otherwise line 44 evaluates
`datetime.now(timezone.utc)` — but line 2's `from time import timezone`
shadows the `timezone` imported from `datetime` on line 1 with the
integer `time.timezone`, so the attribute access `timezone.utc` raises
`AttributeError` before the subtraction ever happens.  (`now`, the
wall-clock instant that call would have read, is therefore unused.) -/
def DynonSerialReader.get_time_since_last_read (r : DynonSerialReader) (_now : ℚ) :
    Except String PyTimedelta :=
  match r.__last_read__ with
  | none => Except.ok { seconds := 5400 }
  | some _ => Except.error "AttributeError"

/-- The attribute access `time_since_last_read.total_seconds` of the
source: the method is *not called* (no parentheses), so the value is
the bound method object, not a number. -/
def PyTimedelta.total_seconds_attribute (td : PyTimedelta) : PyOperand :=
  PyOperand.boundMethod td "total_seconds"

/-- `is_time_to_reconnect`: an `AttributeError` raised inside
`get_time_since_last_read` propagates; otherwise
`return time_since_last_read.total_seconds > 30`. -/
def DynonSerialReader.is_time_to_reconnect (r : DynonSerialReader) (now : ℚ) :
    Except String Bool :=
  match r.get_time_since_last_read now with
  | Except.error e => Except.error e
  | Except.ok time_since_last_read =>
    pyGreaterThan time_since_last_read.total_seconds_attribute (PyOperand.num 30)

def DynonSerialReader.start_reconnect (r : DynonSerialReader) : DynonSerialReader :=
  { r with __last_read__ := none, serial_reader := none }

/-- `open_serial_connection`: attempts an open only when no handle is
held; an exception in the constructor leaves the handle absent. -/
def DynonSerialReader.open_serial_connection (r : DynonSerialReader)
    (openResult : Option Unit) : DynonSerialReader :=
  match r.serial_reader with
  | some _ => r
  | none => { r with serial_reader := openResult }

/-- `read()`: the second component is the Python return value —
`some s` for a returned string, `none` for the implicit `None` that
falls out of the `except` block.  In the nonempty-line branch the
timestamp assignment at line 116 evaluates `timezone.utc` on the
shadowed integer `timezone` (see `get_time_since_last_read`) and raises
`AttributeError` inside the `try`, so that branch too lands in the
handler: the handle is closed and dropped, `__last_read__` is never
set, and the call returns `None` — `return raw_read` is unreachable.
The `close()` inside the handler is modelled as succeeding (were it to
raise, the exception would propagate out of `read()`, since the inner
`try` has no handler); `now` is unused because the only read of the
wall clock raises before producing a value. -/
def DynonSerialReader.read (r : DynonSerialReader) (_now : ℚ) (openResult : Option Unit)
    (outcome : ReadlineResult) : DynonSerialReader × Option String :=
  match r.serial_reader with
  | some _ =>
    match outcome with
    | ReadlineResult.line s =>
      if s.length > 0 then ({ r with serial_reader := none }, none)
      else (r, some "")
    | ReadlineResult.ioError => ({ r with serial_reader := none }, none)
  | none => (r.open_serial_connection openResult, some "")

/-- The EMS example line of the source `__main__` (119 characters plus CR LF,
length 121). -/
def ems_example_line : String :=
  "211316033190079023001119-020000000000066059CHT00092CHT00090N/AXXXXX099900840084058705270690116109209047124022135111036A\x0d\n"

/-- The EFIS example line with non-numeric text in the pitch slot
(characters 8-12 read "-0X8"). -/
def bad_efis_line : String :=
  "21301133-0X8+00001100000+0024-002-00+1099FC39FE01AC\x0d\n"

/-- The EMS example line with non-numeric text in the manifold-pressure slot
(characters 8-12 read "XXXX"). -/
def bad_ems_line : String :=
  "21131603XXXX079023001119-020000000000066059CHT00092CHT00090N/AXXXXX099900840084058705270690116109209047124022135111036A\x0d\n"

/-- All numeric sub-fields of a length-53 EFIS frame parse. -/
def efis_numeric_fields_ok (s : String) : Prop :=
  (pyFloat (pySlice s 6 8)).isSome ∧ (pyFloat (pySlice s 8 12)).isSome ∧
  (pyFloat (pySlice s 12 17)).isSome ∧ (pyInt (pySlice s 17 20)).isSome ∧
  (pyFloat (pySlice s 20 24)).isSome ∧ (pyFloat (pySlice s 24 29)).isSome ∧
  (pyFloat (pySlice s 29 33)).isSome ∧ (pyFloat (pySlice s 36 39)).isSome ∧
  (pyInt (pySlice s 39 41)).isSome ∧ (pyIntHex (pySlice s 41 47)).isSome

instance (s : String) : Decidable (efis_numeric_fields_ok s) := by
  unfold efis_numeric_fields_ok
  infer_instance

/-- All numeric sub-fields of a length-121 EMS frame parse. -/
def ems_numeric_fields_ok (s : String) : Prop :=
  (pyFloat (pySlice s 8 12)).isSome ∧ (pyFloat (pySlice s 15 18)).isSome ∧
  (pyFloat (pySlice s 18 21)).isSome ∧ (pyFloat (pySlice s 21 24)).isSome ∧
  (pyFloat (pySlice s 27 30)).isSome ∧ (pyFloat (pySlice s 37 40)).isSome ∧
  (pyFloat (pySlice s 40 43)).isSome

instance (s : String) : Decidable (ems_numeric_fields_ok s) := by
  unfold ems_numeric_fields_ok
  infer_instance

/-- The EFIS example line with the vertical-acceleration slot (characters
36-39) reading "+50", i.e. a 5.0 G sample. -/
def efis_five_g_line : String :=
  "21301133-008+00001100000+0024-002-00+5099FC39FE01AC\x0d\n"

def decoder_c6_example : EfisAndEmsDecoder :=
  { __ems_data__ :=
      { __max_age_seconds__ := MAX_EMS_DATA_AGE_SECONDS
        __last_updated__ := some 0
        __json_package__ := [("EmsVolts", PyVal.num 12), ("Shared", PyVal.num 1)] }
    __efis_data__ :=
      { __max_age_seconds__ := MAX_EFIS_DATA_AGE_SECOND
        __last_updated__ := some 0
        __json_package__ := [("Shared", PyVal.num 2)] }
    max_lateral_gs := 1
    min_lateral_gs := 1
    max_vertical_gs := 1
    min_vertical_gs := 1 }

def cache_c10_example : JsonDataCache :=
  { __max_age_seconds__ := mkRat 1 4
    __last_updated__ := some 0
    __json_package__ := [("AHRSPitch", PyVal.num 0)] }

/-- Reachability invariant of a cache, preserved by every cache operation
(parts 1-3 of the claim-C2 theorem): whenever the stored package is fresh,
some nonempty update has merged since the last clearing, so the stored dict
is nonempty. -/
def CacheInv (c : JsonDataCache) (now : ℚ) : Prop :=
  ∀ t, c.__last_updated__ = some t →
    qsub now t < c.__max_age_seconds__ → c.__json_package__ ≠ []

def cache_c2_example : JsonDataCache :=
  { __max_age_seconds__ := mkRat 1 2
    __last_updated__ := some 0
    __json_package__ := [("EmsVolts", PyVal.num 12)] }

def cacheRef_c2_example : JsonDataCacheRef :=
  { __max_age_seconds__ := mkRat 1 2
    __last_updated__ := some 0
    __json_package_ref__ := 0 }

def heap_c2_example : Heap := [[("EmsVolts", PyVal.num 12)]]

def reader_c5_example : DynonSerialReader :=
  { serial_port := "/dev/ttyUSB0", serial_reader := none, __last_read__ := none }

def reader_c8_example : DynonSerialReader :=
  { serial_port := "/dev/ttyUSB0", serial_reader := some (), __last_read__ := some 5 }

/-- A reader with a successful read on record, the state on which the
reconnect check raises `AttributeError`. -/
def reader_c5_read_example : DynonSerialReader :=
  { serial_port := "/dev/ttyUSB0", serial_reader := some (), __last_read__ := some 5 }

/-! ### Theorems -/
theorem mkRat_eq_cast_div (n : ℤ) (d : ℕ) : mkRat n d = (n : ℚ) / (d : ℚ) := by
  rw [Rat.mkRat_eq_divInt, Rat.divInt_eq_div]
  norm_cast

theorem qmul_eq (a b : ℚ) : qmul a b = a * b := by
  rw [qmul, mkRat_eq_cast_div]
  push_cast
  rw [← div_mul_div_comm, Rat.num_div_den, Rat.num_div_den]

theorem qadd_eq (a b : ℚ) : qadd a b = a + b := by
  have ha : ((a.den : ℚ)) ≠ 0 := Nat.cast_ne_zero.mpr a.den_nz
  have hb : ((b.den : ℚ)) ≠ 0 := Nat.cast_ne_zero.mpr b.den_nz
  rw [qadd, mkRat_eq_cast_div]
  rw [show a + b = (a.num : ℚ) / a.den + (b.num : ℚ) / b.den by
    rw [Rat.num_div_den, Rat.num_div_den]]
  rw [div_add_div _ _ ha hb]
  push_cast
  ring_nf

theorem qsub_eq (a b : ℚ) : qsub a b = a - b := by
  rw [qsub, qadd_eq, sub_eq_add_neg]

theorem qinv_eq (b : ℚ) : qinv b = b⁻¹ := by
  rw [Rat.inv_def', Rat.divInt_eq_div, qinv]
  split
  case isTrue h =>
    rw [mkRat_eq_cast_div]
    push_cast [Int.cast_natAbs]
    rw [abs_of_neg (show ((b.num : ℚ)) < 0 by exact_mod_cast h), div_neg, neg_div,
      neg_neg]
  case isFalse h =>
    rw [mkRat_eq_cast_div]
    have hcast : ((b.num.toNat : ℕ) : ℚ) = ((b.num : ℤ) : ℚ) := by
      exact_mod_cast Int.toNat_of_nonneg (not_lt.mp h)
    rw [hcast]

theorem qdiv_eq (a b : ℚ) : qdiv a b = a / b := by
  rw [qdiv, qmul_eq, qinv_eq, div_eq_mul_inv]

example : qdiv (-8) 10 = mkRat (-4) 5 := by decide
example : qmul (mkRat 109361 100000) 3 = mkRat 328083 100000 := by decide
example : qsub 1 (mkRat 1 2) = mkRat 1 2 := by decide

theorem dictGet_dictSet (d : Dict) (k : String) (v : PyVal) (k' : String) :
    dictGet (dictSet d k v) k' = if k = k' then some v else dictGet d k' := by
  induction d with
  | nil => simp [dictSet, dictGet]
  | cons p rest ih =>
    obtain ⟨k0, v0⟩ := p
    by_cases h0 : k0 = k
    · subst h0
      by_cases h1 : k0 = k' <;> simp [dictSet, dictGet, h1]
    · by_cases h1 : k0 = k'
      · have hk : ¬ k = k' := fun hh => h0 (h1.trans hh.symm)
        have hk2 : ¬ k' = k := fun hh => hk hh.symm
        simp [dictSet, dictGet, h0, h1, hk, hk2]
      · simp [dictSet, dictGet, h0, h1, ih]

theorem dictGet_eq_none_of_not_mem (d : Dict) (k : String)
    (h : k ∉ dictKeys d) : dictGet d k = none := by
  induction d with
  | nil => simp [dictGet]
  | cons p rest ih =>
    obtain ⟨k0, v0⟩ := p
    simp only [dictKeys, List.map_cons, List.mem_cons] at h
    push_neg at h
    have hne : ¬ k0 = k := fun hh => h.1 hh.symm
    show (if k0 = k then some v0 else dictGet rest k) = none
    rw [if_neg hne]
    exact ih (by simpa [dictKeys] using h.2)

theorem dictGet_dictUpdate (d e : Dict) (k : String)
    (he : (dictKeys e).Nodup) :
    dictGet (dictUpdate d e) k = optOr (dictGet e k) (dictGet d k) := by
  induction e generalizing d with
  | nil => simp [dictUpdate, dictGet, optOr]
  | cons p rest ih =>
    obtain ⟨k0, v0⟩ := p
    simp only [dictKeys, List.map_cons, List.nodup_cons] at he
    obtain ⟨hk0, hrest⟩ := he
    have hstep : dictUpdate d ((k0, v0) :: rest) = dictUpdate (dictSet d k0 v0) rest := by
      simp [dictUpdate, List.foldl_cons]
    rw [hstep, ih (dictSet d k0 v0) hrest]
    by_cases h : k0 = k
    · subst h
      have : dictGet rest k0 = none :=
        dictGet_eq_none_of_not_mem rest k0 (by simpa [dictKeys] using hk0)
      simp [dictGet, this, optOr, dictGet_dictSet]
    · simp [dictGet, h, dictGet_dictSet, optOr]

theorem dictSet_ne_nil (d : Dict) (k : String) (v : PyVal) :
    dictSet d k v ≠ [] := by
  cases d with
  | nil => simp [dictSet]
  | cons p rest =>
    obtain ⟨k0, v0⟩ := p
    by_cases h : k0 = k <;> simp [dictSet, h]

theorem dictUpdate_ne_nil (d e : Dict) (he : e ≠ []) :
    dictUpdate d e ≠ [] := by
  induction e generalizing d with
  | nil => exact absurd rfl he
  | cons p rest ih =>
    have hstep : dictUpdate d (p :: rest) = dictUpdate (dictSet d p.1 p.2) rest := by
      simp [dictUpdate, List.foldl_cons]
    rw [hstep]
    cases rest with
    | nil => simpa [dictUpdate] using dictSet_ne_nil d p.1 p.2
    | cons q rest' => exact ih (dictSet d p.1 p.2) (by simp)

example : pyFloat "-008" = some (mkRat (-8) 1) := by decide
example : pyFloat "+0000" = some 0 := by decide
example : pyFloat "1.5" = some (mkRat 3 2) := by decide
example : pyFloat "2e1" = some 20 := by decide
example : pyFloat "2e-1" = some (mkRat 1 5) := by decide
example : pyFloat "1-2" = none := by decide
example : pyFloat "" = none := by decide
example : pyFloat "." = none := by decide
example : pyInt "110" = some 110 := by decide
example : pyInt "-03" = some (-3) := by decide
example : pyInt "1.5" = none := by decide
example : pyIntHex "FC39FE" = some 16529918 := by decide
example : pyIntHex "0x1A" = some 26 := by decide
example : pyIntHex "G1" = none := by decide
example : pyFloatRepr (qdiv 33 64) = "0.515625" := by decide
example : pySlice (pyFloatRepr (qdiv 33 64)) 2 4 = "51" := by decide
example : pySlice "hello" 1 3 = "el" := by decide
example : pySlice "hello" 3 99 = "lo" := by decide

theorem heapRead_append_lt (h : Heap) (d : Dict) (r : ℕ) (hr : r < h.length) :
    heapRead (h ++ [d]) r = heapRead h r := by
  induction h generalizing r with
  | nil => simp at hr
  | cons c h ih =>
    cases r with
    | zero => simp [heapRead]
    | succ r => simpa [heapRead] using ih r (by simpa using hr)

theorem heapRead_append_self (h : Heap) (d : Dict) :
    heapRead (h ++ [d]) h.length = d := by
  induction h with
  | nil => simp [heapRead]
  | cons c h ih => simpa [heapRead] using ih

theorem heapRead_heapWrite_ne (h : Heap) (r r' : ℕ) (d : Dict) (hne : r ≠ r') :
    heapRead (heapWrite h r d) r' = heapRead h r' := by
  induction h generalizing r r' with
  | nil => simp [heapWrite]
  | cons c h ih =>
    cases r with
    | zero =>
      cases r' with
      | zero => exact absurd rfl hne
      | succ r' => simp [heapWrite, heapRead]
    | succ r =>
      cases r' with
      | zero => simp [heapWrite, heapRead]
      | succ r' =>
        simpa [heapWrite, heapRead] using ih r r' (fun hh => hne (by simpa using hh))

theorem heapWrite_length (h : Heap) (r : ℕ) (d : Dict) :
    (heapWrite h r d).length = h.length := by
  induction h generalizing r with
  | nil => simp [heapWrite]
  | cons c h ih =>
    cases r with
    | zero => simp [heapWrite]
    | succ r => simpa [heapWrite] using ih r

example : efis_example_line.length = 53 := by decide

/-! ### Claims -/

/-- Claim C1: for every successful EFIS decode of a length-53 frame, bit 0 of
the hexadecimal status field parsed from characters 41-47 selects exactly one
of two mutually exclusive output shapes: if the bit is set the output contains
the pressure-altitude and vertical-speed fields and omits the plain altitude
and turn-rate fields; if the bit is clear, the converse.  Exactly one of the
two pairs is present per decode, never both and never neither. -/
theorem claim_c1_status_bit_selects_output_shape
    (gmin gmax : ℚ) (today : PyDate) (s : String) (d : Dict) (status : ℤ)
    (_hlen : __get_data_length__ (some s) = 53)
    (hok : decode_efis_package gmin gmax today s = Except.ok d)
    (hstatus : pyIntHex (pySlice s 41 47) = some status) :
    (status % 2 = 1 →
      (dictGet d "BaroPressureAltitude").isSome ∧ (dictGet d "BaroVerticalSpeed").isSome ∧
      dictGet d "Altitude" = none ∧ dictGet d "AHRSTurnRate" = none)
    ∧ (status % 2 ≠ 1 →
      dictGet d "BaroPressureAltitude" = none ∧ dictGet d "BaroVerticalSpeed" = none ∧
      (dictGet d "Altitude").isSome ∧ (dictGet d "AHRSTurnRate").isSome) := by
  rw [decode_efis_package] at hok
  split at hok
  case _ tf p_r r_r yaw i_r a_r t_r v_r aoa stat htf hp hr hy hi ha ht hv haoa hstat =>
    rw [hstatus] at hstat
    injection hstat with hstat
    subst hstat
    injection hok with hok
    subst hok
    by_cases hbit : status % 2 = 1
    · refine ⟨fun _ => ?_, fun hc => absurd hbit hc⟩
      rw [if_pos hbit]
      simp [dictGet_dictSet, dictGet]
    · refine ⟨fun hc => absurd hc hbit, fun _ => ?_⟩
      rw [if_neg hbit]
      simp [dictGet_dictSet, dictGet]
  case _ =>
    exact absurd hok (by simp)

theorem claim_c1_status_bit_selects_output_shape_witness :
    (∃ d, decode_efis_package 1 1 ⟨2026, 10, 12⟩ efis_example_line = Except.ok d
      ∧ dictGet d "BaroPressureAltitude" = none ∧ dictGet d "BaroVerticalSpeed" = none
      ∧ (dictGet d "Altitude").isSome ∧ (dictGet d "AHRSTurnRate").isSome) := by
  refine ⟨_, rfl, ?_⟩
  have h := claim_c1_status_bit_selects_output_shape 1 1 ⟨2026, 10, 12⟩
    efis_example_line _ 16529918 (by decide) rfl (by decide)
  exact h.2 (by decide)

/-- Claim C4: inputs whose length differs from the schema's expected exact
length (53 for EFIS, 121 for EMS), including absent and empty reads, leave
both caches completely unchanged; since 53 and 121 differ, a single raw line
can merge into at most one of the two caches. -/
theorem claim_c4_wrong_length_no_merge :
    (∀ (st : EfisAndEmsDecoder) (today : PyDate) (now : ℚ) (sd : Option String),
      __get_data_length__ sd ≠ 53 → st.decode_efis today now sd = (st, none))
    ∧ (∀ (st : EfisAndEmsDecoder) (now : ℚ) (sd : Option String),
      __get_data_length__ sd ≠ 121 → st.decode_ems now sd = (st, none))
    ∧ (∀ (st : EfisAndEmsDecoder) (today : PyDate) (now : ℚ) (sd : Option String),
      (st.decode_efis today now sd).1.__ems_data__ = st.__ems_data__)
    ∧ (∀ (st : EfisAndEmsDecoder) (now : ℚ) (sd : Option String),
      (st.decode_ems now sd).1.__efis_data__ = st.__efis_data__)
    ∧ (∀ sd : Option String,
      ¬ (__get_data_length__ sd = 53 ∧ __get_data_length__ sd = 121)) := by
  refine ⟨?_, ?_, ?_, ?_, ?_⟩
  · intro st today now sd h
    rw [EfisAndEmsDecoder.decode_efis, if_pos h]
  · intro st now sd h
    rw [EfisAndEmsDecoder.decode_ems, if_pos h]
  · intro st today now sd
    rw [EfisAndEmsDecoder.decode_efis]
    split
    · rfl
    · split <;> rfl
  · intro st now sd
    rw [EfisAndEmsDecoder.decode_ems]
    split
    · rfl
    · split <;> rfl
  · intro sd h
    omega

theorem claim_c4_wrong_length_no_merge_witness :
    EfisAndEmsDecoder.init.decode_efis ⟨2026, 10, 12⟩ 0 none = (EfisAndEmsDecoder.init, none)
    ∧ EfisAndEmsDecoder.init.decode_ems 0 (some "") = (EfisAndEmsDecoder.init, none) :=
  ⟨claim_c4_wrong_length_no_merge.1 EfisAndEmsDecoder.init ⟨2026, 10, 12⟩ 0 none (by decide),
   claim_c4_wrong_length_no_merge.2.1 EfisAndEmsDecoder.init 0 (some "") (by decide)⟩

/-- Claim C7: a decode call that raises (non-numeric text in a numeric slot of
a correct-length input) leaves the corresponding cache untouched — no partial
merge is observable, because the merge runs only after every sub-field has
decoded; and for correct-length input whose numeric sub-fields are all
well-formed the decode never raises. -/
theorem claim_c7_parse_failure_no_partial_merge :
    (∀ (st : EfisAndEmsDecoder) (today : PyDate) (now : ℚ) (sd : Option String)
      (e : String), (st.decode_efis today now sd).2 = some e →
      (st.decode_efis today now sd).1 = st)
    ∧ (∀ (st : EfisAndEmsDecoder) (now : ℚ) (sd : Option String) (e : String),
      (st.decode_ems now sd).2 = some e → (st.decode_ems now sd).1 = st)
    ∧ (∀ (st : EfisAndEmsDecoder) (today : PyDate) (now : ℚ) (s : String),
      __get_data_length__ (some s) = 53 → efis_numeric_fields_ok s →
      (st.decode_efis today now (some s)).2 = none)
    ∧ (∀ (st : EfisAndEmsDecoder) (now : ℚ) (s : String),
      __get_data_length__ (some s) = 121 → ems_numeric_fields_ok s →
      (st.decode_ems now (some s)).2 = none) := by
  refine ⟨?_, ?_, ?_, ?_⟩
  · intro st today now sd e h
    by_cases hlen : __get_data_length__ sd ≠ 53
    · rw [EfisAndEmsDecoder.decode_efis, if_pos hlen]
    · rw [EfisAndEmsDecoder.decode_efis, if_neg hlen] at h ⊢
      cases hm : decode_efis_package st.min_vertical_gs st.max_vertical_gs today
          (sd.getD "") with
      | ok d => rw [hm] at h; simp at h
      | error er => rfl
  · intro st now sd e h
    by_cases hlen : __get_data_length__ sd ≠ 121
    · rw [EfisAndEmsDecoder.decode_ems, if_pos hlen]
    · rw [EfisAndEmsDecoder.decode_ems, if_neg hlen] at h ⊢
      cases hm : decode_ems_package (sd.getD "") with
      | ok d => rw [hm] at h; simp at h
      | error er => rfl
  · intro st today now s hlen hok
    obtain ⟨h1, h2, h3, h4, h5, h6, h7, h8, h9, h10⟩ := hok
    obtain ⟨q1, h1⟩ := Option.isSome_iff_exists.mp h1
    obtain ⟨q2, h2⟩ := Option.isSome_iff_exists.mp h2
    obtain ⟨q3, h3⟩ := Option.isSome_iff_exists.mp h3
    obtain ⟨q4, h4⟩ := Option.isSome_iff_exists.mp h4
    obtain ⟨q5, h5⟩ := Option.isSome_iff_exists.mp h5
    obtain ⟨q6, h6⟩ := Option.isSome_iff_exists.mp h6
    obtain ⟨q7, h7⟩ := Option.isSome_iff_exists.mp h7
    obtain ⟨q8, h8⟩ := Option.isSome_iff_exists.mp h8
    obtain ⟨q9, h9⟩ := Option.isSome_iff_exists.mp h9
    obtain ⟨q10, h10⟩ := Option.isSome_iff_exists.mp h10
    rw [EfisAndEmsDecoder.decode_efis,
      if_neg (by simp [hlen] : ¬ __get_data_length__ (some s) ≠ 53)]
    simp only [Option.getD_some, decode_efis_package, time_fraction, h1, h2, h3, h4, h5,
      h6, h7, h8, h9, h10, Option.map_some']
  · intro st now s hlen hok
    obtain ⟨h1, h2, h3, h4, h5, h6, h7⟩ := hok
    obtain ⟨q1, h1⟩ := Option.isSome_iff_exists.mp h1
    obtain ⟨q2, h2⟩ := Option.isSome_iff_exists.mp h2
    obtain ⟨q3, h3⟩ := Option.isSome_iff_exists.mp h3
    obtain ⟨q4, h4⟩ := Option.isSome_iff_exists.mp h4
    obtain ⟨q5, h5⟩ := Option.isSome_iff_exists.mp h5
    obtain ⟨q6, h6⟩ := Option.isSome_iff_exists.mp h6
    obtain ⟨q7, h7⟩ := Option.isSome_iff_exists.mp h7
    rw [EfisAndEmsDecoder.decode_ems,
      if_neg (by simp [hlen] : ¬ __get_data_length__ (some s) ≠ 121)]
    simp only [Option.getD_some, decode_ems_package, h1, h2, h3, h4, h5, h6, h7]

theorem claim_c7_parse_failure_no_partial_merge_witness :
    (EfisAndEmsDecoder.init.decode_efis ⟨2026, 10, 12⟩ 0 (some bad_efis_line)).1
      = EfisAndEmsDecoder.init
    ∧ (EfisAndEmsDecoder.init.decode_ems 0 (some bad_ems_line)).1 = EfisAndEmsDecoder.init
    ∧ (EfisAndEmsDecoder.init.decode_efis ⟨2026, 10, 12⟩ 0 (some efis_example_line)).2 = none
    ∧ (EfisAndEmsDecoder.init.decode_ems 0 (some ems_example_line)).2 = none :=
  ⟨claim_c7_parse_failure_no_partial_merge.1 EfisAndEmsDecoder.init ⟨2026, 10, 12⟩ 0
      (some bad_efis_line) "ValueError" (by decide),
   claim_c7_parse_failure_no_partial_merge.2.1 EfisAndEmsDecoder.init 0
      (some bad_ems_line) "ValueError" (by decide),
   claim_c7_parse_failure_no_partial_merge.2.2.1 EfisAndEmsDecoder.init ⟨2026, 10, 12⟩ 0
      efis_example_line (by decide) (by decide),
   claim_c7_parse_failure_no_partial_merge.2.2.2 EfisAndEmsDecoder.init 0
      ems_example_line (by decide) (by decide)⟩

/-- Claim C3 (refuted; the code never calls `update_gs`): the session
acceleration extremes are never updated by any EFIS decode — they keep their
initial value 1.0 — so a decode of a 5.0 G frame still reports the initial
session extremes (`AHRSGLoadMin`/`AHRSGLoadMax` both 1.0) instead of folding
the frame's reading into them. -/
theorem claim_c3_session_extremes_never_updated :
    (∀ (st : EfisAndEmsDecoder) (today : PyDate) (now : ℚ) (sd : Option String),
      (st.decode_efis today now sd).1.min_vertical_gs = st.min_vertical_gs
      ∧ (st.decode_efis today now sd).1.max_vertical_gs = st.max_vertical_gs
      ∧ (st.decode_efis today now sd).1.min_lateral_gs = st.min_lateral_gs
      ∧ (st.decode_efis today now sd).1.max_lateral_gs = st.max_lateral_gs)
    ∧ (pyFloat (pySlice efis_five_g_line 36 39) = some 50
      ∧ (EfisAndEmsDecoder.init.decode_efis ⟨2026, 10, 12⟩ 0 (some efis_five_g_line)).2
          = none
      ∧ (EfisAndEmsDecoder.init.decode_efis ⟨2026, 10, 12⟩ 0
          (some efis_five_g_line)).1.max_vertical_gs = 1
      ∧ dictGet ((EfisAndEmsDecoder.init.decode_efis ⟨2026, 10, 12⟩ 0
            (some efis_five_g_line)).1.__efis_data__.__json_package__) "AHRSGLoad"
          = some (PyVal.num 5)
      ∧ dictGet ((EfisAndEmsDecoder.init.decode_efis ⟨2026, 10, 12⟩ 0
            (some efis_five_g_line)).1.__efis_data__.__json_package__) "AHRSGLoadMax"
          = some (PyVal.num 1)
      ∧ dictGet ((EfisAndEmsDecoder.init.decode_efis ⟨2026, 10, 12⟩ 0
            (some efis_five_g_line)).1.__efis_data__.__json_package__) "AHRSGLoadMin"
          = some (PyVal.num 1)) := by
  constructor
  · intro st today now sd
    refine ⟨?_, ?_, ?_, ?_⟩ <;>
    · rw [EfisAndEmsDecoder.decode_efis]
      split
      · rfl
      · split <;> rfl
  · decide

/-- Claim C9 counterexample: feeding the literal EFIS example string, padded
to length 53 with the CR LF ending exactly as the repository's own `__main__`
does, yields pitch -0.8 (not 0.0) and yaw 110 (not 0). -/
theorem claim_c9_counterexample :
    dictGet ((EfisAndEmsDecoder.init.decode_efis ⟨2026, 10, 12⟩ 0
        (some efis_example_line)).1.__efis_data__.__json_package__) "AHRSPitch"
      = some (PyVal.num (mkRat (-4) 5))
    ∧ mkRat (-4) 5 ≠ (0 : ℚ)
    ∧ dictGet ((EfisAndEmsDecoder.init.decode_efis ⟨2026, 10, 12⟩ 0
        (some efis_example_line)).1.__efis_data__.__json_package__) "AHRSGyroHeading"
      = some (PyVal.int 110)
    ∧ (110 : ℤ) ≠ 0 := by decide

/-- Claim C9 as amended: feeding the literal EFIS string padded to length 53
(by appending CR LF, as the repository's `__main__` does) through the EFIS
decode yields pitch = -0.8, roll = 0.0, yaw = 110, and a populated timestamp
whose date component comes from the current UTC wall clock and whose
time-of-day is the frame's embedded hour "21", minute "30", second "11"
(fraction "51"). -/
theorem claim_c9_amended_roundtrip (gmin gmax : ℚ) (today : PyDate) :
    ∃ d, decode_efis_package gmin gmax today efis_example_line = Except.ok d
      ∧ dictGet d "AHRSPitch" = some (PyVal.num (mkRat (-4) 5))
      ∧ dictGet d "AHRSRoll" = some (PyVal.num 0)
      ∧ dictGet d "AHRSGyroHeading" = some (PyVal.int 110)
      ∧ dictGet d "GPSTime"
          = some (PyVal.str (format_timestamp today "21" "30" "11" "51")) := by
  refine ⟨_, rfl, ?_, ?_, ?_, ?_⟩ <;> rfl

theorem nodup_keys_get (c : JsonDataCache) (now : ℚ)
    (h : (dictKeys c.__json_package__).Nodup) : (dictKeys (c.get now)).Nodup := by
  rw [JsonDataCache.get]
  cases c.__last_updated__ with
  | none => simp [dictKeys]
  | some lu =>
    dsimp only
    split
    · exact h
    · simp [dictKeys]

/-- Claim C6: `get_ahrs_package` returns the fixed `Service` entry unioned
first with the EMS cache's currently-available snapshot and then with the
EFIS cache's snapshot, so EFIS wins any key collision; an unavailable cache
contributes no keys; the `Service` key is always present. -/
theorem claim_c6_merged_snapshot
    (st : EfisAndEmsDecoder) (now : ℚ) (k : String)
    (hems : (dictKeys st.__ems_data__.__json_package__).Nodup)
    (hefis : (dictKeys st.__efis_data__.__json_package__).Nodup) :
    dictGet (st.get_ahrs_package now) k =
      optOr (dictGet (if st.__efis_data__.is_available now
            then st.__efis_data__.get now else []) k)
        (optOr (dictGet (if st.__ems_data__.is_available now
              then st.__ems_data__.get now else []) k)
          (dictGet [("Service", PyVal.str "DynonToHud")] k))
    ∧ (dictGet (st.get_ahrs_package now) "Service").isSome
    ∧ (st.__ems_data__.is_available now = false →
        (if st.__ems_data__.is_available now then st.__ems_data__.get now else []) = [])
    ∧ (st.__efis_data__.is_available now = false →
        (if st.__efis_data__.is_available now then st.__efis_data__.get now else []) = []) := by
  have hsnapE : (dictKeys (if st.__efis_data__.is_available now
      then st.__efis_data__.get now else [])).Nodup := by
    split
    · exact nodup_keys_get _ _ hefis
    · simp [dictKeys]
  have hsnapM : (dictKeys (if st.__ems_data__.is_available now
      then st.__ems_data__.get now else [])).Nodup := by
    split
    · exact nodup_keys_get _ _ hems
    · simp [dictKeys]
  have hgen : ∀ k' : String, dictGet (st.get_ahrs_package now) k' =
      optOr (dictGet (if st.__efis_data__.is_available now
            then st.__efis_data__.get now else []) k')
        (optOr (dictGet (if st.__ems_data__.is_available now
              then st.__ems_data__.get now else []) k')
          (dictGet [("Service", PyVal.str "DynonToHud")] k')) := by
    intro k'
    simp only [EfisAndEmsDecoder.get_ahrs_package]
    rw [dictGet_dictUpdate _ _ _ hsnapE, dictGet_dictUpdate _ _ _ hsnapM]
  refine ⟨hgen k, ?_, fun h => by simp [h], fun h => by simp [h]⟩
  rw [hgen "Service"]
  cases dictGet (if st.__efis_data__.is_available now
      then st.__efis_data__.get now else []) "Service" <;>
    cases dictGet (if st.__ems_data__.is_available now
        then st.__ems_data__.get now else []) "Service" <;>
      simp [optOr, dictGet]

theorem claim_c6_merged_snapshot_witness :
    dictGet (decoder_c6_example.get_ahrs_package 0) "Shared" =
      optOr (dictGet (if decoder_c6_example.__efis_data__.is_available 0
            then decoder_c6_example.__efis_data__.get 0 else []) "Shared")
        (optOr (dictGet (if decoder_c6_example.__ems_data__.is_available 0
              then decoder_c6_example.__ems_data__.get 0 else []) "Shared")
          (dictGet [("Service", PyVal.str "DynonToHud")] "Shared"))
    ∧ (dictGet (decoder_c6_example.get_ahrs_package 0) "Service").isSome := by
  have h := claim_c6_merged_snapshot decoder_c6_example 0 "Shared" (by decide) (by decide)
  exact ⟨h.1, h.2.1⟩

/-- Claim C10: when the data age equals exactly `max_age_seconds`, the
staleness comparisons are asymmetric: `is_available()` is false and `get()`
returns the empty mapping (both require age strictly below the maximum), yet
`garbage_collect()` leaves the stored mapping intact (it clears only for age
strictly above the maximum), so the hidden keys still count toward
`get_item_count()`. -/
theorem claim_c10_staleness_boundary (c : JsonDataCache) (now lu : ℚ)
    (hlu : c.__last_updated__ = some lu)
    (hage : qsub now lu = c.__max_age_seconds__) :
    c.is_available now = false
    ∧ c.get now = []
    ∧ c.garbage_collect now = c
    ∧ (c.garbage_collect now).get_item_count = c.__json_package__.length := by
  have hagee : c.__get_data_age__ now = c.__max_age_seconds__ := by
    simp only [JsonDataCache.__get_data_age__, hlu]
    exact hage
  have hgc : c.garbage_collect now = c := by
    rw [JsonDataCache.garbage_collect, hagee, if_neg (lt_irrefl c.__max_age_seconds__)]
  refine ⟨?_, ?_, hgc, ?_⟩
  · rw [JsonDataCache.is_available, hagee]
    simp
  · simp only [JsonDataCache.get, hlu]
    rw [hage, if_neg (lt_irrefl c.__max_age_seconds__)]
  · rw [hgc, JsonDataCache.get_item_count]

theorem claim_c10_staleness_boundary_witness :
    cache_c10_example.is_available (mkRat 1 4) = false
    ∧ cache_c10_example.get (mkRat 1 4) = []
    ∧ cache_c10_example.garbage_collect (mkRat 1 4) = cache_c10_example
    ∧ (cache_c10_example.garbage_collect (mkRat 1 4)).get_item_count
        = cache_c10_example.__json_package__.length :=
  claim_c10_staleness_boundary cache_c10_example (mkRat 1 4) 0 rfl (by decide)

/-- Claim C2: `get()` returns the empty mapping exactly when the cache was
never updated or `now - last_updated >= max_age_seconds` (on every state
reachable through the cache's operations, captured by `CacheInv`); otherwise
it returns the stored mapping as a shallow copy that is independent of the
internal storage: the returned reference differs from the stored one, and
mutating the returned dict affects neither the stored cell nor the contents
returned by a subsequent `get()`. -/
theorem claim_c2_get_copy_semantics :
    (∀ (max_age now : ℚ), CacheInv (JsonDataCache.init max_age) now)
    ∧ (∀ (c : JsonDataCache) (now now' : ℚ) (p : Option Dict), now ≤ now' →
        CacheInv c now → CacheInv (c.update now' p) now')
    ∧ (∀ (c : JsonDataCache) (now : ℚ), CacheInv c now →
        CacheInv (c.garbage_collect now) now)
    ∧ (∀ (c : JsonDataCache) (now : ℚ), CacheInv c now →
        (c.get now = [] ↔
          ¬ ∃ t, c.__last_updated__ = some t ∧ qsub now t < c.__max_age_seconds__))
    ∧ (∀ (c : JsonDataCache) (now t : ℚ), c.__last_updated__ = some t →
        qsub now t < c.__max_age_seconds__ → c.get now = c.__json_package__)
    ∧ (∀ (c : JsonDataCacheRef) (h : Heap) (now : ℚ),
        c.__json_package_ref__ < h.length →
        (c.get h now).2 ≠ c.__json_package_ref__
        ∧ heapRead (c.get h now).1 c.__json_package_ref__
            = heapRead h c.__json_package_ref__
        ∧ (∀ d', heapRead (heapWrite (c.get h now).1 (c.get h now).2 d')
              c.__json_package_ref__ = heapRead h c.__json_package_ref__)
        ∧ (∀ d', heapRead ((c.get (heapWrite (c.get h now).1 (c.get h now).2 d') now).1)
              ((c.get (heapWrite (c.get h now).1 (c.get h now).2 d') now).2)
            = heapRead ((c.get h now).1) ((c.get h now).2))) := by
  refine ⟨?_, ?_, ?_, ?_, ?_, ?_⟩
  · intro max_age now t ht
    simp [JsonDataCache.init] at ht
  · intro c now now' p hle hinv
    have hmono : CacheInv c now' := by
      intro t ht hf
      refine hinv t ht ?_
      rw [qsub_eq] at hf ⊢
      linarith
    cases p with
    | none => exact hmono
    | some d =>
      simp only [JsonDataCache.update]
      split
      · exact hmono
      case isFalse hlen =>
        intro t ht hf
        exact dictUpdate_ne_nil c.__json_package__ d
          (fun hnil => hlen (by simp [hnil]))
  · intro c now hinv
    rw [JsonDataCache.garbage_collect]
    split
    case isTrue hgt =>
      intro t ht hf
      simp only at ht hf
      rw [JsonDataCache.__get_data_age__] at hgt
      rw [ht] at hgt
      exact absurd hf (lt_asymm hgt)
    case isFalse hgt => exact hinv
  · intro c now hinv
    cases hl : c.__last_updated__ with
    | none =>
      simp only [JsonDataCache.get, hl]
      simp [hl]
    | some lu =>
      simp only [JsonDataCache.get, hl]
      by_cases hf : qsub now lu < c.__max_age_seconds__
      · rw [if_pos hf]
        exact iff_of_false (hinv lu hl hf) (fun hn => hn ⟨lu, rfl, hf⟩)
      · rw [if_neg hf]
        refine iff_of_true rfl ?_
        rintro ⟨t, ht, hft⟩
        injection ht with ht
        exact hf (ht ▸ hft)
  · intro c now t hlu hf
    simp only [JsonDataCache.get, hlu]
    rw [if_pos hf]
  · intro c h now hr
    rcases hl : c.__last_updated__ with _ | lu
    · simp only [JsonDataCacheRef.get, hl, heapAlloc]
      refine ⟨by intro he; omega, heapRead_append_lt h [] _ hr, ?_, ?_⟩
      · intro d'
        rw [heapRead_heapWrite_ne _ _ _ _ (by intro he; omega),
          heapRead_append_lt h [] _ hr]
      · intro d'
        rw [heapRead_append_self, heapRead_append_self]
    · by_cases hf : qsub now lu < c.__max_age_seconds__
      · simp only [JsonDataCacheRef.get, hl, if_pos hf, heapAlloc]
        have hwr : ∀ d', heapRead (heapWrite (h ++ [heapRead h c.__json_package_ref__])
            h.length d') c.__json_package_ref__ = heapRead h c.__json_package_ref__ := by
          intro d'
          rw [heapRead_heapWrite_ne _ _ _ _ (by intro he; omega),
            heapRead_append_lt h _ _ hr]
        refine ⟨by intro he; omega, heapRead_append_lt h _ _ hr, hwr, ?_⟩
        intro d'
        rw [heapRead_append_self, heapRead_append_self, hwr d']
      · simp only [JsonDataCacheRef.get, hl, if_neg hf, heapAlloc]
        refine ⟨by intro he; omega, heapRead_append_lt h [] _ hr, ?_, ?_⟩
        · intro d'
          rw [heapRead_heapWrite_ne _ _ _ _ (by intro he; omega),
            heapRead_append_lt h [] _ hr]
        · intro d'
          rw [heapRead_append_self, heapRead_append_self]

theorem claim_c2_get_copy_semantics_witness :
    CacheInv ((JsonDataCache.init (mkRat 1 2)).update 1 (some [("k", PyVal.num 1)])) 1
    ∧ CacheInv (cache_c2_example.garbage_collect (mkRat 1 8)) (mkRat 1 8)
    ∧ (cache_c2_example.get (mkRat 1 8) = [] ↔
        ¬ ∃ t, cache_c2_example.__last_updated__ = some t ∧
          qsub (mkRat 1 8) t < cache_c2_example.__max_age_seconds__)
    ∧ cache_c2_example.get (mkRat 1 8) = cache_c2_example.__json_package__
    ∧ (cacheRef_c2_example.get heap_c2_example 0).2
        ≠ cacheRef_c2_example.__json_package_ref__ := by
  have hinv : CacheInv cache_c2_example (mkRat 1 8) := fun t ht hf => by decide
  refine ⟨?_, ?_, ?_, ?_, ?_⟩
  · exact claim_c2_get_copy_semantics.2.1 (JsonDataCache.init (mkRat 1 2)) 0 1
      (some [("k", PyVal.num 1)]) (by decide) (claim_c2_get_copy_semantics.1 (mkRat 1 2) 0)
  · exact claim_c2_get_copy_semantics.2.2.1 cache_c2_example (mkRat 1 8) hinv
  · exact claim_c2_get_copy_semantics.2.2.2.1 cache_c2_example (mkRat 1 8) hinv
  · exact claim_c2_get_copy_semantics.2.2.2.2.1 cache_c2_example (mkRat 1 8) 0 rfl (by decide)
  · exact (claim_c2_get_copy_semantics.2.2.2.2.2 cacheRef_c2_example heap_c2_example 0
      (by decide)).1

/-- Claim C5 (refuted by the code; the claim matches the method's intent):
`is_time_to_reconnect` never returns a boolean at all, but the exception
depends on the state.  For a reader with no successful read ever recorded,
`get_time_since_last_read` does report a 5400-second duration (90 minutes,
far above the 30-second threshold), and the comparison at line 57 then
pits the uncalled bound method `total_seconds` against the integer 30 and
raises `TypeError`.  For a reader with a recorded read,
`get_time_since_last_read` itself raises `AttributeError` at
`timezone.utc` (line 2's `from time import timezone` shadows
`datetime.timezone` with an integer), so the comparison is never reached.
After `start_reconnect()` the handle and the last-read timestamp are
absent, as claimed. -/
theorem claim_c5_reconnect_check_raises :
    (∀ (r : DynonSerialReader) (now : ℚ), ∃ e : String,
      r.is_time_to_reconnect now = Except.error e)
    ∧ (∀ (r : DynonSerialReader) (now : ℚ), r.__last_read__ = none →
      r.is_time_to_reconnect now = Except.error "TypeError")
    ∧ (∀ (r : DynonSerialReader) (now t : ℚ), r.__last_read__ = some t →
      r.is_time_to_reconnect now = Except.error "AttributeError")
    ∧ (∀ (r : DynonSerialReader) (now : ℚ), r.__last_read__ = none →
      r.get_time_since_last_read now = Except.ok { seconds := 5400 })
    ∧ ((5400 : ℚ) > 30)
    ∧ (∀ r : DynonSerialReader,
      (r.start_reconnect).serial_reader = none ∧ (r.start_reconnect).__last_read__ = none) := by
  have hnone : ∀ (r : DynonSerialReader) (now : ℚ), r.__last_read__ = none →
      r.is_time_to_reconnect now = Except.error "TypeError" := by
    intro r now hl
    simp only [DynonSerialReader.is_time_to_reconnect,
      DynonSerialReader.get_time_since_last_read, hl]
    rfl
  have hsome : ∀ (r : DynonSerialReader) (now t : ℚ), r.__last_read__ = some t →
      r.is_time_to_reconnect now = Except.error "AttributeError" := by
    intro r now t hl
    simp only [DynonSerialReader.is_time_to_reconnect,
      DynonSerialReader.get_time_since_last_read, hl]
  refine ⟨?_, hnone, hsome, ?_, by decide, fun r => ⟨rfl, rfl⟩⟩
  · intro r now
    cases hl : r.__last_read__ with
    | none => exact ⟨"TypeError", hnone r now hl⟩
    | some t => exact ⟨"AttributeError", hsome r now t hl⟩
  · intro r now hl
    simp only [DynonSerialReader.get_time_since_last_read, hl]
theorem claim_c5_reconnect_check_raises_witness :
    reader_c5_example.is_time_to_reconnect 0 = Except.error "TypeError"
    ∧ reader_c5_read_example.is_time_to_reconnect 0 = Except.error "AttributeError"
    ∧ reader_c5_example.get_time_since_last_read 0 = Except.ok { seconds := 5400 } :=
  ⟨claim_c5_reconnect_check_raises.2.1 reader_c5_example 0 rfl,
   claim_c5_reconnect_check_raises.2.2.1 reader_c5_read_example 0 5 rfl,
   claim_c5_reconnect_check_raises.2.2.2.1 reader_c5_example 0 rfl⟩

/-- Claim C8 (partly refuted): `read()` returns the empty string when no
handle is held (after attempting an open) and when the line read yields zero
bytes, and on an I/O exception it does drop the handle without propagating —
but on that exception path it falls off the end of the `except` block and
returns Python `None` (modelled `none`), not a string, contradicting the
claim and the method's own docstring. -/
theorem claim_c8_read_return_paths :
    (∀ (r : DynonSerialReader) (now : ℚ) (openResult : Option Unit)
      (oc : ReadlineResult), r.serial_reader = none →
      r.read now openResult oc = (r.open_serial_connection openResult, some ""))
    ∧ (∀ (r : DynonSerialReader) (now : ℚ) (openResult : Option Unit) (u : Unit),
      r.serial_reader = some u →
      r.read now openResult (ReadlineResult.line "") = (r, some ""))
    ∧ (∀ (r : DynonSerialReader) (now : ℚ) (openResult : Option Unit) (u : Unit),
      r.serial_reader = some u →
      r.read now openResult ReadlineResult.ioError
        = ({ r with serial_reader := none }, none)) := by
  refine ⟨?_, ?_, ?_⟩
  · intro r now openResult oc h
    simp only [DynonSerialReader.read, h]
  · intro r now openResult u h
    simp only [DynonSerialReader.read, h]
    rfl
  · intro r now openResult u h
    simp only [DynonSerialReader.read, h]

theorem claim_c8_read_return_paths_witness :
    reader_c5_example.read 0 none ReadlineResult.ioError
      = (reader_c5_example.open_serial_connection none, some "")
    ∧ reader_c8_example.read 0 none (ReadlineResult.line "") = (reader_c8_example, some "")
    ∧ reader_c8_example.read 0 none ReadlineResult.ioError
      = ({ reader_c8_example with serial_reader := none }, none) :=
  ⟨claim_c8_read_return_paths.1 reader_c5_example 0 none ReadlineResult.ioError rfl,
   claim_c8_read_return_paths.2.1 reader_c8_example 0 none () rfl,
   claim_c8_read_return_paths.2.2 reader_c8_example 0 none () rfl⟩
